import Mathlib

/-!
Verification of the image-processing core of Redmi Pro Studio
(`services/imageProcessor.ts`, function `processImage`).

The per-pixel tone/color math of the source operates on JavaScript numbers;
we idealise them as elements of a linear ordered field `K` (instantiated at
`ℚ` for executable computations and at `ℝ` for the full pipeline, whose
exposure multiplier `2^(exposure/100)` is transcendental).  Pixel samples
live in a `Uint8ClampedArray`; a write to such an array clamps to `[0,255]`
and rounds to the nearest integer with ties to even (ECMAScript
`ToUint8Clamp`), which we model by `toByte`.

The whole-image post-effects (clarity, sharpness, vignette) are sequences of
HTML-canvas drawing calls.  We embed them in two layers: `clarityOps`,
`sharpnessOps` and `vignetteOps` record, straight from the source, which
canvas operations each stage issues (`PostOp`); `applyPostOp` interprets one
operation on a pixel buffer, using the compositing and blend-mode formulas
that the browser canvas provides (re-specified in the design document,
§4.1–4.2).  The browser blur filter has no specified kernel; it is modelled
as a box filter (see `boxBlur`).
-/

namespace RPS

variable {K : Type} [LinearOrderedField K] [FloorRing K]

/-- The twelve adjustment parameters (source `types.ts`, `EditorSettings`),
idealised over a field `K`. -/
structure EditorSettings (K : Type) where
  exposure : K
  contrast : K
  shadows : K
  highlights : K
  whites : K
  temp : K
  tint : K
  saturation : K
  vibrance : K
  sharpness : K
  clarity : K
  vignette : K

/-- The all-zero default settings (source `constants.tsx`, `INITIAL_SETTINGS`). -/
def INITIAL_SETTINGS : EditorSettings K := ⟨0, 0, 0, 0, 0, 0, 0, 0, 0, 0, 0, 0⟩

/-- Settings with only `contrast` set. -/
def contrastOnly (k : K) : EditorSettings K := ⟨0, k, 0, 0, 0, 0, 0, 0, 0, 0, 0, 0⟩

/-- Settings with only `exposure` set. -/
def expOnly (e : K) : EditorSettings K := ⟨e, 0, 0, 0, 0, 0, 0, 0, 0, 0, 0, 0⟩

/-- Settings with only `saturation` and `vibrance` set. -/
def satVibOnly (sa vi : K) : EditorSettings K := ⟨0, 0, 0, 0, 0, 0, 0, sa, vi, 0, 0, 0⟩

/-- Settings with only `clarity` set. -/
def clarityOnly (c : K) : EditorSettings K := ⟨0, 0, 0, 0, 0, 0, 0, 0, 0, 0, c, 0⟩

/-- Settings with only `sharpness` set. -/
def sharpnessOnly (c : K) : EditorSettings K := ⟨0, 0, 0, 0, 0, 0, 0, 0, 0, c, 0, 0⟩

/-- One RGBA pixel; each sample is an 8-bit unsigned integer stored as `ℤ`. -/
structure Pix where
  r : ℤ
  g : ℤ
  b : ℤ
  a : ℤ
  deriving DecidableEq

/-- A raster image: dimensions plus a pixel function (row-major RGBA buffer). -/
structure Image where
  width : ℕ
  height : ℕ
  pix : ℕ → ℕ → Pix

/-- All four samples of a pixel are in the 8-bit range `[0,255]`. -/
def PixBytes (p : Pix) : Prop :=
  (0 ≤ p.r ∧ p.r ≤ 255) ∧ (0 ≤ p.g ∧ p.g ≤ 255) ∧
    (0 ≤ p.b ∧ p.b ≤ 255) ∧ (0 ≤ p.a ∧ p.a ≤ 255)

/-- Every pixel of the image holds valid 8-bit samples. -/
def ImageBytes (img : Image) : Prop := ∀ x y : ℕ, PixBytes (img.pix x y)

/-- Round to the nearest integer, ties to even (steps 4–7 of ECMAScript
`ToUint8Clamp`, the conversion performed by a `Uint8ClampedArray` store). -/
def roundHalfEven (x : K) : ℤ :=
  if x - (⌊x⌋ : K) < 1/2 then ⌊x⌋
  else if 1/2 < x - (⌊x⌋ : K) then ⌊x⌋ + 1
  else if ⌊x⌋ % 2 = 0 then ⌊x⌋ else ⌊x⌋ + 1

/-- ECMAScript `ToUint8Clamp`: clamp to `[0,255]`, then round half to even.
This is the conversion applied by `data[i] = r` on the `Uint8ClampedArray`
returned by `getImageData` (source lines 115–117). -/
def toByte (x : K) : ℤ :=
  if x ≤ 0 then 0
  else if 255 ≤ x then 255
  else roundHalfEven x

/-- Source line 20: `(259 * (settings.contrast + 255)) / (255 * (259 - settings.contrast))`. -/
def contrastFactor (s : EditorSettings K) : K :=
  (259 * (s.contrast + 255)) / (255 * (259 - s.contrast))

/-- Source line 22: `settings.temp > 0 ? settings.temp * 0.5 : 0`. -/
def rTemp (s : EditorSettings K) : K := if 0 < s.temp then s.temp * (1/2) else 0

/-- Source line 23: `settings.temp < 0 ? -settings.temp * 0.5 : 0`. -/
def bTemp (s : EditorSettings K) : K := if s.temp < 0 then -s.temp * (1/2) else 0

/-- Source line 24: `settings.tint > 0 ? settings.tint * 0.3 : 0`. -/
def gTint (s : EditorSettings K) : K := if 0 < s.tint then s.tint * (3/10) else 0

/-- Source line 25: `settings.tint < 0 ? -settings.tint * 0.3 : 0`. -/
def mTint (s : EditorSettings K) : K := if s.tint < 0 then -s.tint * (3/10) else 0

/-- Source line 27: `1 + (settings.saturation / 100)`. -/
def satMult (s : EditorSettings K) : K := 1 + s.saturation / 100

/-- Source line 28: `1 + (settings.vibrance / 100)`. -/
def vibMult (s : EditorSettings K) : K := 1 + s.vibrance / 100

/-- Source line 30: `settings.shadows / 100`. -/
def shadowLift (s : EditorSettings K) : K := s.shadows / 100

/-- Source line 31: `settings.highlights / 100`. -/
def highlightDrop (s : EditorSettings K) : K := s.highlights / 100

/-- Source line 32: `settings.whites / 100`. -/
def whiteLift (s : EditorSettings K) : K := s.whites / 100

/-- Source line 91: `0.2989 * r + 0.5870 * g + 0.1140 * b` (the gray value of
the saturation/vibrance block). -/
def grayOf (r g b : K) : K :=
  (2989/10000) * r + (5870/10000) * g + (1140/10000) * b

/-- Source lines 94–96: `maxC = max(r, max(g, b))`, `avgC = (r+g+b)/3`,
`amt = ((abs(maxC - avgC) * 2) / 255) * 0.5`. -/
def vibAmt (r g b : K) : K :=
  ((|max r (max g b) - (r + g + b) / 3| * 2) / 255) * (1/2)

/-- The vibrance protection amount as the specification words it (§4.3 step 9):
`amt = min(1, (|max(R,G,B)-avg(R,G,B)|*2/255) * 0.5)`.  Stated from the spec,
to be compared with the source's `vibAmt`, which has no `min`. -/
def vibranceSpecAmt (r g b : K) : K :=
  min 1 ((|max r (max g b) - (r + g + b) / 3| * 2 / 255) * (1/2))

/-- The saturation/vibrance block of the pixel loop (source lines 90–113),
acting on the channel values already clamped by lines 85–87.  `gray` is
computed once (line 91) and reused by the saturation step even after the
vibrance step has modified the channels; saturation is applied to the
possibly vibrance-adjusted channels. -/
def satVibBlock (s : EditorSettings K) (r8 g8 b8 : K) : K × K × K :=
  if s.saturation ≠ 0 ∨ s.vibrance ≠ 0 then
    let gray := grayOf r8 g8 b8
    let rv := if s.vibrance ≠ 0 then
        (if 0 < s.vibrance then r8 + (r8 - gray) * (vibMult s - 1) * (1 - vibAmt r8 g8 b8)
         else r8 + (r8 - gray) * (vibMult s - 1))
      else r8
    let gv := if s.vibrance ≠ 0 then
        (if 0 < s.vibrance then g8 + (g8 - gray) * (vibMult s - 1) * (1 - vibAmt r8 g8 b8)
         else g8 + (g8 - gray) * (vibMult s - 1))
      else g8
    let bv := if s.vibrance ≠ 0 then
        (if 0 < s.vibrance then b8 + (b8 - gray) * (vibMult s - 1) * (1 - vibAmt r8 g8 b8)
         else b8 + (b8 - gray) * (vibMult s - 1))
      else b8
    if s.saturation ≠ 0 then
      (gray + (rv - gray) * satMult s,
       gray + (gv - gray) * satMult s,
       gray + (bv - gray) * satMult s)
    else (rv, gv, bv)
  else (r8, g8, b8)

/-- The body of the per-pixel loop (source lines 34–113) up to, but not
including, the `Uint8ClampedArray` write-back: exposure, white balance, tone
curve, contrast, the unconditional clamp of lines 85–87, and the
saturation/vibrance block.  `em` is the precomputed `exposureMult` of source
line 19. -/
def toneCore (em : K) (s : EditorSettings K) (r0 g0 b0 : K) : K × K × K :=
  let r1 := if s.exposure ≠ 0 then r0 * em else r0
  let g1 := if s.exposure ≠ 0 then g0 * em else g0
  let b1 := if s.exposure ≠ 0 then b0 * em else b0
  let r2 := if s.temp ≠ 0 then r1 + rTemp s else r1
  let b2 := if s.temp ≠ 0 then b1 + bTemp s else b1
  let g2 := if s.tint ≠ 0 then g1 + gTint s else g1
  let r3 := if s.tint ≠ 0 then r2 + mTint s else r2
  let b3 := if s.tint ≠ 0 then b2 + mTint s else b2
  let lum := (299/1000) * r3 + (587/1000) * g2 + (114/1000) * b3
  let shLift := (1 - lum / 255) * shadowLift s * 80
  let r4 := if s.shadows ≠ 0 then r3 + shLift else r3
  let g4 := if s.shadows ≠ 0 then g2 + shLift else g2
  let b4 := if s.shadows ≠ 0 then b3 + shLift else b3
  let hlDrop := (lum / 255) * highlightDrop s * 80
  let r5 := if s.highlights ≠ 0 then r4 + hlDrop else r4
  let g5 := if s.highlights ≠ 0 then g4 + hlDrop else g4
  let b5 := if s.highlights ≠ 0 then b4 + hlDrop else b4
  let wLift := whiteLift s * 50
  let r6 := if s.whites ≠ 0 ∧ 200 < lum then r5 + wLift else r5
  let g6 := if s.whites ≠ 0 ∧ 200 < lum then g5 + wLift else g5
  let b6 := if s.whites ≠ 0 ∧ 200 < lum then b5 + wLift else b5
  let r7 := if s.contrast ≠ 0 then contrastFactor s * (r6 - 128) + 128 else r6
  let g7 := if s.contrast ≠ 0 then contrastFactor s * (g6 - 128) + 128 else g6
  let b7 := if s.contrast ≠ 0 then contrastFactor s * (b6 - 128) + 128 else b6
  satVibBlock s (max 0 (min 255 r7)) (max 0 (min 255 g7)) (max 0 (min 255 b7))

/-- One iteration of the pixel loop including the write-back to the
`Uint8ClampedArray` (source lines 115–117); alpha is untouched. -/
def processPixel (em : K) (s : EditorSettings K) (p : Pix) : Pix :=
  ⟨toByte (toneCore em s (p.r : K) (p.g : K) (p.b : K)).1,
   toByte (toneCore em s (p.r : K) (p.g : K) (p.b : K)).2.1,
   toByte (toneCore em s (p.r : K) (p.g : K) (p.b : K)).2.2,
   p.a⟩

/-- Canvas composite operation selected through `globalCompositeOperation`. -/
inductive CompOp where
  | sourceOver
  | multiply
  | screen
  | overlay
  deriving DecidableEq

/-- One canvas drawing call issued by the post-process stage of
`processImage` (source lines 122–166):
`overlayFill` — `fillRect` of a solid color in `overlay` mode (clarity > 0);
`blurSelfDraw` — `drawImage(ctx.canvas)` under `filter = blur(radius px)`
(clarity < 0, first call); `drawOriginal` — `drawImage(originalImage)` in
`source-over` mode under `globalAlpha` (clarity < 0, second call);
`overlaySelfDraw` — `drawImage(ctx.canvas)` in `overlay` mode under
`globalAlpha` (sharpness); `vignetteFill` — `fillRect` of the radial
gradient in the given mode (vignette). -/
inductive PostOp (K : Type) where
  | overlayFill (r g b alpha : K)
  | blurSelfDraw (radius : K)
  | drawOriginal (alpha : K)
  | overlaySelfDraw (alpha : K)
  | vignetteFill (r g b alpha : K) (mode : CompOp)
  deriving DecidableEq

/-- The canvas calls of the clarity stage (source lines 123–138). -/
def clarityOps (s : EditorSettings K) : List (PostOp K) :=
  if s.clarity ≠ 0 then
    if 0 < s.clarity / 100 then
      [PostOp.overlayFill 128 128 128 ((s.clarity / 100) * (4/10))]
    else
      [PostOp.blurSelfDraw (|s.clarity / 100| * 2),
       PostOp.drawOriginal (1/2 + (s.clarity / 100) * (4/10))]
  else []

/-- The canvas calls of the sharpness stage (source lines 140–147). -/
def sharpnessOps (s : EditorSettings K) : List (PostOp K) :=
  if 0 < s.sharpness then [PostOp.overlaySelfDraw (s.sharpness / 400)] else []

/-- The canvas calls of the vignette stage (source lines 149–166). -/
def vignetteOps (s : EditorSettings K) : List (PostOp K) :=
  if s.vignette ≠ 0 then
    if s.vignette < 0 then
      [PostOp.vignetteFill 255 255 255 ((|s.vignette| / 100) * (8/10)) CompOp.screen]
    else
      [PostOp.vignetteFill 0 0 0 ((|s.vignette| / 100) * (8/10)) CompOp.multiply]
  else []

/-- All post-process canvas calls, in source order: clarity, sharpness,
vignette. -/
def postOps (s : EditorSettings K) : List (PostOp K) :=
  clarityOps s ++ sharpnessOps s ++ vignetteOps s

/-- Modelled from the spec: per-channel blend functions of the canvas blend
modes used by the post-effects (§4.2 of the design document; the
implementation lives in the browser, not in the repository). -/
def blendChan : CompOp → K → K → K
  | CompOp.sourceOver, _, sc => sc
  | CompOp.multiply, d, sc => d * sc / 255
  | CompOp.screen, d, sc => 255 - (255 - d) * (255 - sc) / 255
  | CompOp.overlay, d, sc =>
      if d < 128 then 2 * d * sc / 255 else 255 - 2 * (255 - d) * (255 - sc) / 255

/-- Modelled from the spec: the generic alpha-compositing formula (§4.1):
`out = dst*(1 - opacity*srcAlpha) + blend(dst, src)*(opacity*srcAlpha)`. -/
def compChan (mode : CompOp) (opacity srcAlpha d sc : K) : K :=
  d * (1 - opacity * srcAlpha) + blendChan mode d sc * (opacity * srcAlpha)

/-- Modelled from the spec: the composited alpha sample (standard source-over
alpha accumulation, in byte scale). -/
def compAlpha (opacity srcAlpha da : K) : K :=
  255 * (opacity * srcAlpha) + da * (1 - opacity * srcAlpha)

/-- Composite one source color (channels `sr,sg,sb`, own alpha `srcAlpha` as
a fraction) over one destination pixel, writing every sample back through the
8-bit buffer (`toByte`). -/
def compositePix (mode : CompOp) (opacity : K) (d : Pix) (sr sg sb srcAlpha : K) : Pix :=
  ⟨toByte (compChan mode opacity srcAlpha (d.r : K) sr),
   toByte (compChan mode opacity srcAlpha (d.g : K) sg),
   toByte (compChan mode opacity srcAlpha (d.b : K) sb),
   toByte (compAlpha opacity srcAlpha (d.a : K))⟩

/-- Composite a source layer over a destination image pixelwise. -/
def compositeImg (mode : CompOp) (opacity : K) (dst src : Image) : Image :=
  ⟨dst.width, dst.height, fun x y =>
    compositePix mode opacity (dst.pix x y)
      ((src.pix x y).r : K) ((src.pix x y).g : K) ((src.pix x y).b : K)
      (((src.pix x y).a : K) / 255)⟩

/-- Clamp an index into `[0, n-1]` (edge extension for the blur window). -/
def clampIdx (n : ℕ) (i : ℤ) : ℕ := (max 0 (min ((n : ℤ) - 1) i)).toNat

/-- The window of indices covered by a radius-`k` box kernel at position `i`. -/
def windowIdx (n k i : ℕ) : List ℕ :=
  (List.range (2 * k + 1)).map (fun j => clampIdx n ((i : ℤ) + (j : ℤ) - (k : ℤ)))

/-- Sum of one channel over a window of pixel positions. -/
def windowSum (img : Image) (xs ys : List ℕ) (f : Pix → ℤ) : ℤ :=
  (ys.map (fun yy => (xs.map (fun xx => f (img.pix xx yy))).sum)).sum

/-- Modelled from the spec: the canvas `filter: blur(r px)` primitive.  The
design document (§4.1, §9) specifies only an approximate low-pass whose
softening scales with the radius and says the exact kernel is not
load-bearing; we model a box filter of radius `⌈r⌉` with edge clamping,
every output sample written through the 8-bit buffer. -/
noncomputable def boxBlur (k : ℕ) (img : Image) : Image :=
  ⟨img.width, img.height, fun x y =>
    let xs := windowIdx img.width k x
    let ys := windowIdx img.height k y
    let cnt : ℝ := ((xs.length * ys.length : ℕ) : ℝ)
    ⟨toByte ((windowSum img xs ys Pix.r : ℝ) / cnt),
     toByte ((windowSum img xs ys Pix.g : ℝ) / cnt),
     toByte ((windowSum img xs ys Pix.b : ℝ) / cnt),
     toByte ((windowSum img xs ys Pix.a : ℝ) / cnt)⟩⟩

/-- Modelled from the spec: the interpolation parameter of the radial
gradient of source line 150 — center `(w/2, h/2)`, inner radius `w/3`, outer
radius `max(w,h)/1.2` — clamped to `[0,1]`. -/
noncomputable def radialT (w h x y : ℕ) : ℝ :=
  max 0 (min 1
    ((Real.sqrt (((x : ℝ) - (w : ℝ) / 2) ^ 2 + ((y : ℝ) - (h : ℝ) / 2) ^ 2)
        - (w : ℝ) / 3) /
      (max (w : ℝ) (h : ℝ) / (12/10) - (w : ℝ) / 3)))

/-- Interpret one post-process canvas call on the working surface.  `orig` is
the untouched source image (`originalImage` in the source); `surf` is the
current canvas content. -/
noncomputable def applyPostOp (orig : Image) (surf : Image) : PostOp ℝ → Image
  | PostOp.overlayFill cr cg cb al =>
      ⟨surf.width, surf.height, fun x y =>
        compositePix CompOp.overlay 1 (surf.pix x y) cr cg cb al⟩
  | PostOp.blurSelfDraw rad =>
      compositeImg CompOp.sourceOver (1 : ℝ) surf (boxBlur (Int.toNat ⌈rad⌉) surf)
  | PostOp.drawOriginal al =>
      compositeImg CompOp.sourceOver al surf orig
  | PostOp.overlaySelfDraw al =>
      compositeImg CompOp.overlay al surf surf
  | PostOp.vignetteFill cr cg cb al mode =>
      ⟨surf.width, surf.height, fun x y =>
        compositePix mode 1 (surf.pix x y) cr cg cb
          (al * radialT surf.width surf.height x y)⟩

/-- Failure of a render call.  The source performs no explicit validation;
on a zero-area canvas the `getImageData(0, 0, w, h)` call of source line 15
throws (`IndexSizeError` per the HTML canvas specification), which realises
the `InvalidInput` failure of the design document (§7): the call fails and
no output is produced. -/
inductive RenderError where
  | invalidInput
  deriving DecidableEq

/-- Source line 19: `Math.pow(2, settings.exposure / 100)`. -/
noncomputable def exposureMult (s : EditorSettings ℝ) : ℝ := 2 ^ (s.exposure / 100)

/-- The per-pixel pass (source lines 34–118) applied to the whole drawn
buffer. -/
noncomputable def toneImage (s : EditorSettings ℝ) (img : Image) : Image :=
  ⟨img.width, img.height, fun x y => processPixel (exposureMult s) s (img.pix x y)⟩

/-- The full `processImage` pipeline: draw the source (the caller sizes the
canvas to the image, so the draw of line 13 is a plain copy), fail if
`getImageData` has zero area, run the per-pixel pass, then interpret the
post-process canvas calls in source order. -/
noncomputable def render (img : Image) (s : EditorSettings ℝ) : Except RenderError Image :=
  if img.width = 0 ∨ img.height = 0 then Except.error RenderError.invalidInput
  else Except.ok ((postOps s).foldl (applyPostOp img) (toneImage s img))

/-- A concrete 1×1 test image. -/
def oneByOne : Image := ⟨1, 1, fun _ _ => ⟨10, 20, 30, 255⟩⟩

/-- A concrete 2×2 all-mid-gray image (the spec's concrete contrast
scenario). -/
def midGray2x2 : Image := ⟨2, 2, fun _ _ => ⟨128, 128, 128, 255⟩⟩

/-- A concrete zero-area image. -/
def emptyImage : Image := ⟨0, 5, fun _ _ => ⟨0, 0, 0, 0⟩⟩

/-- The rounding of `ToUint8Clamp` moves a value by less than one. -/
theorem roundHalfEven_bounds (x : K) :
    ⌊x⌋ ≤ roundHalfEven x ∧ roundHalfEven x ≤ ⌊x⌋ + 1 := by
  unfold roundHalfEven
  split_ifs <;> omega

/-- Rounding a value that is already an integer is the identity. -/
theorem roundHalfEven_intCast (v : ℤ) : roundHalfEven (v : K) = v := by
  unfold roundHalfEven
  simp

/-- Round-half-to-even is monotone. -/
theorem roundHalfEven_mono {x y : K} (h : x ≤ y) :
    roundHalfEven x ≤ roundHalfEven y := by
  rcases lt_or_eq_of_le (Int.floor_le_floor h) with hf | hf
  · calc roundHalfEven x ≤ ⌊x⌋ + 1 := (roundHalfEven_bounds x).2
      _ ≤ ⌊y⌋ := by omega
      _ ≤ roundHalfEven y := (roundHalfEven_bounds y).1
  · unfold roundHalfEven
    rw [hf]
    have hxy : x - ((⌊y⌋ : ℤ) : K) ≤ y - ((⌊y⌋ : ℤ) : K) := by linarith
    split_ifs <;> first | omega | linarith

theorem toByte_of_nonpos {x : K} (h : x ≤ 0) : toByte x = 0 := by
  rw [toByte, if_pos h]

theorem toByte_of_ge {x : K} (h : 255 ≤ x) : toByte x = 255 := by
  rw [toByte, if_neg (by intro h0; linarith), if_pos h]

theorem toByte_of_mid {x : K} (h0 : 0 < x) (h : x < 255) :
    toByte x = roundHalfEven x := by
  rw [toByte, if_neg (not_le.mpr h0), if_neg (not_le.mpr h)]

/-- Every sample written through the clamped byte store is nonnegative. -/
theorem toByte_nonneg (x : K) : 0 ≤ toByte x := by
  rcases le_or_lt x 0 with h | h
  · rw [toByte_of_nonpos h]
  · rcases le_or_lt 255 x with h2 | h2
    · rw [toByte_of_ge h2]; omega
    · rw [toByte_of_mid h h2]
      have hb := (roundHalfEven_bounds x).1
      have h0 : (0:ℤ) ≤ ⌊x⌋ := Int.floor_nonneg.mpr h.le
      omega

/-- Every sample written through the clamped byte store is at most 255. -/
theorem toByte_le_255 (x : K) : toByte x ≤ 255 := by
  rcases le_or_lt x 0 with h | h
  · rw [toByte_of_nonpos h]; omega
  · rcases le_or_lt 255 x with h2 | h2
    · rw [toByte_of_ge h2]
    · rw [toByte_of_mid h h2]
      have hb := (roundHalfEven_bounds x).2
      have hfl : ⌊x⌋ < 255 := Int.floor_lt.mpr (by exact_mod_cast h2)
      omega

/-- The clamped byte store is monotone. -/
theorem toByte_mono {x y : K} (h : x ≤ y) : toByte x ≤ toByte y := by
  rcases le_or_lt x 0 with hx0 | hx0
  · rw [toByte_of_nonpos hx0]; exact toByte_nonneg y
  · rcases le_or_lt 255 x with hx255 | hx255
    · rw [toByte_of_ge hx255, toByte_of_ge (le_trans hx255 h)]
    · rw [toByte_of_mid hx0 hx255]
      rcases le_or_lt 255 y with hy255 | hy255
      · rw [toByte_of_ge hy255]
        have hb := (roundHalfEven_bounds x).2
        have hfl : ⌊x⌋ < 255 := Int.floor_lt.mpr (by exact_mod_cast hx255)
        omega
      · rw [toByte_of_mid (lt_of_lt_of_le hx0 h) hy255]
        exact roundHalfEven_mono h

/-- Storing a value within one half of a valid byte returns that byte. -/
theorem toByte_near_int (v : ℤ) (h0 : 0 ≤ v) (h255 : v ≤ 255) (x : K)
    (hx : |x - (v : K)| < 1/2) : toByte x = v := by
  rw [abs_sub_lt_iff] at hx
  obtain ⟨hx1, hx2⟩ := hx
  unfold toByte
  split_ifs with h1 h2
  · have hv1 : (v : K) < 1 := by linarith
    have : v < 1 := by exact_mod_cast hv1
    omega
  · have hv1 : (254 : K) < (v : K) := by linarith
    have : (254 : ℤ) < v := by exact_mod_cast hv1
    omega
  · rcases le_or_lt (v : K) x with hvx | hvx
    · have hfl : ⌊x⌋ = v := Int.floor_eq_iff.mpr ⟨hvx, by push_cast; linarith⟩
      unfold roundHalfEven
      rw [hfl]
      rw [if_pos (by linarith)]
    · have hfl : ⌊x⌋ = v - 1 :=
        Int.floor_eq_iff.mpr ⟨by push_cast; linarith, by push_cast; linarith⟩
      unfold roundHalfEven
      rw [hfl]
      rw [if_neg (by push_cast; linarith), if_pos (by push_cast; linarith)]
      omega

/-- Storing a valid byte value is the identity. -/
theorem toByte_intCast (v : ℤ) (h0 : 0 ≤ v) (h255 : v ≤ 255) :
    toByte (v : K) = v := by
  apply toByte_near_int v h0 h255
  simp

/-- The clamp of source lines 85–87 is the identity on valid byte values. -/
theorem clamp_intCast (v : ℤ) (h0 : 0 ≤ v) (h255 : v ≤ 255) :
    max 0 (min 255 (v : K)) = (v : K) := by
  rw [min_eq_right (by exact_mod_cast h255), max_eq_right (by exact_mod_cast h0)]

/-- Two images with the same dimensions and the same pixels are equal. -/
theorem Image.eq_of {i j : Image} (hw : i.width = j.width) (hh : i.height = j.height)
    (hp : ∀ x y, i.pix x y = j.pix x y) : i = j := by
  cases i
  cases j
  simp only [Image.mk.injEq]
  exact ⟨hw, hh, funext fun x => funext fun y => hp x y⟩

/-- When the seven tone fields are all zero, the pixel loop reduces to the
clamp followed by the saturation/vibrance block. -/
theorem toneCore_toneZero (em : K) (s : EditorSettings K)
    (h1 : s.exposure = 0) (h2 : s.temp = 0) (h3 : s.tint = 0) (h4 : s.shadows = 0)
    (h5 : s.highlights = 0) (h6 : s.whites = 0) (h7 : s.contrast = 0) (r0 g0 b0 : K) :
    toneCore em s r0 g0 b0 =
      satVibBlock s (max 0 (min 255 r0)) (max 0 (min 255 g0)) (max 0 (min 255 b0)) := by
  simp [toneCore, h1, h2, h3, h4, h5, h6, h7]

/-- With both saturation and vibrance zero the color block is skipped. -/
theorem satVibBlock_zero (s : EditorSettings K) (hs : s.saturation = 0)
    (hv : s.vibrance = 0) (r g b : K) : satVibBlock s r g b = (r, g, b) := by
  simp [satVibBlock, hs, hv]

/-- With all settings at zero a pixel passes through the loop unchanged. -/
theorem processPixel_initial (em : K) (p : Pix) (hp : PixBytes p) :
    processPixel em (INITIAL_SETTINGS : EditorSettings K) p = p := by
  obtain ⟨⟨hr0, hr1⟩, ⟨hg0, hg1⟩, ⟨hb0, hb1⟩, _⟩ := hp
  have hcore : toneCore em (INITIAL_SETTINGS : EditorSettings K)
      (p.r : K) (p.g : K) (p.b : K) = ((p.r : K), (p.g : K), (p.b : K)) := by
    rw [toneCore_toneZero em _ rfl rfl rfl rfl rfl rfl rfl,
      satVibBlock_zero _ rfl rfl, clamp_intCast _ hr0 hr1, clamp_intCast _ hg0 hg1,
      clamp_intCast _ hb0 hb1]
  cases p
  simp only [processPixel, hcore]
  simp only [Pix.mk.injEq]
  refine ⟨toByte_intCast _ hr0 hr1, toByte_intCast _ hg0 hg1, toByte_intCast _ hb0 hb1, trivial⟩

/-- With clarity, sharpness and vignette all zero no post-process canvas call
is issued. -/
theorem postOps_zero (s : EditorSettings K) (h1 : s.clarity = 0)
    (h2 : s.sharpness = 0) (h3 : s.vignette = 0) : postOps s = [] := by
  simp [postOps, clarityOps, sharpnessOps, vignetteOps, h1, h2, h3]

/-- C1: with every one of the twelve settings fields equal to 0, the full
pipeline leaves the pixel buffer numerically identical to the drawn source
image — every tone/color branch and every post-effect is skipped, and the
unconditional clamp (and the clamped byte write-back) is the identity on
already-valid 8-bit data. -/
theorem c1_identity_law (img : Image) (hbytes : ImageBytes img)
    (hw : 0 < img.width) (hh : 0 < img.height) :
    render img INITIAL_SETTINGS = Except.ok img := by
  rw [render, if_neg (by push_neg; exact ⟨hw.ne', hh.ne'⟩)]
  rw [postOps_zero _ rfl rfl rfl, List.foldl_nil]
  refine congrArg Except.ok (Image.eq_of rfl rfl fun x y => ?_)
  exact processPixel_initial _ _ (hbytes x y)

/-- C1 witness: the identity law on a concrete 1×1 image. -/
theorem c1_identity_law_witness :
    render oneByOne INITIAL_SETTINGS = Except.ok oneByOne :=
  c1_identity_law oneByOne
    (fun _ _ => by norm_num [oneByOne, PixBytes])
    (by norm_num [oneByOne]) (by norm_num [oneByOne])

/-- Every post-effect interpretation keeps the surface dimensions. -/
theorem applyPostOp_width (orig surf : Image) (op : PostOp ℝ) :
    (applyPostOp orig surf op).width = surf.width := by
  cases op <;> rfl

theorem applyPostOp_height (orig surf : Image) (op : PostOp ℝ) :
    (applyPostOp orig surf op).height = surf.height := by
  cases op <;> rfl

theorem foldl_applyPostOp_width (orig : Image) (l : List (PostOp ℝ)) (surf : Image) :
    (l.foldl (applyPostOp orig) surf).width = surf.width := by
  induction l generalizing surf with
  | nil => rfl
  | cons op t ih => rw [List.foldl_cons, ih, applyPostOp_width]

theorem foldl_applyPostOp_height (orig : Image) (l : List (PostOp ℝ)) (surf : Image) :
    (l.foldl (applyPostOp orig) surf).height = surf.height := by
  induction l generalizing surf with
  | nil => rfl
  | cons op t ih => rw [List.foldl_cons, ih, applyPostOp_height]

/-- Every sample produced by a pixel composite is a valid byte. -/
theorem compositePix_bytes (mode : CompOp) (opacity : ℝ) (d : Pix)
    (sr sg sb sa : ℝ) : PixBytes (compositePix mode opacity d sr sg sb sa) :=
  ⟨⟨toByte_nonneg _, toByte_le_255 _⟩, ⟨toByte_nonneg _, toByte_le_255 _⟩,
   ⟨toByte_nonneg _, toByte_le_255 _⟩, ⟨toByte_nonneg _, toByte_le_255 _⟩⟩

/-- Every post-effect interpretation writes only valid bytes. -/
theorem applyPostOp_bytes (orig surf : Image) (op : PostOp ℝ) :
    ImageBytes (applyPostOp orig surf op) := by
  cases op <;> intro x y <;> exact compositePix_bytes _ _ _ _ _ _ _

theorem foldl_applyPostOp_bytes (orig : Image) (l : List (PostOp ℝ)) (surf : Image)
    (h : ImageBytes surf) : ImageBytes (l.foldl (applyPostOp orig) surf) := by
  induction l generalizing surf with
  | nil => exact h
  | cons op t ih => exact ih _ (applyPostOp_bytes orig surf op)

/-- The per-pixel pass writes every color sample through the clamped byte
store and passes alpha through, so it preserves the byte invariant. -/
theorem toneImage_bytes (s : EditorSettings ℝ) (img : Image)
    (h : ImageBytes img) : ImageBytes (toneImage s img) := fun x y =>
  ⟨⟨toByte_nonneg _, toByte_le_255 _⟩, ⟨toByte_nonneg _, toByte_le_255 _⟩,
   ⟨toByte_nonneg _, toByte_le_255 _⟩, (h x y).2.2.2⟩

/-- C4: a zero-area source image makes the render call fail with the
`InvalidInput` error (realised by the zero-area `getImageData` throw) and no
partial output; every non-empty image renders successfully to a buffer with
the dimensions of the source. -/
theorem c4_invalid_input (img : Image) (s : EditorSettings ℝ) :
    ((img.width = 0 ∨ img.height = 0) →
      render img s = Except.error RenderError.invalidInput) ∧
    (0 < img.width → 0 < img.height →
      ∃ out, render img s = Except.ok out ∧
        out.width = img.width ∧ out.height = img.height) := by
  constructor
  · intro h
    rw [render, if_pos h]
  · intro hw hh
    refine ⟨(postOps s).foldl (applyPostOp img) (toneImage s img), ?_, ?_, ?_⟩
    · rw [render, if_neg (by push_neg; exact ⟨hw.ne', hh.ne'⟩)]
    · rw [foldl_applyPostOp_width]; rfl
    · rw [foldl_applyPostOp_height]; rfl

/-- C4 witness: the zero-area failure and the success case on concrete
images. -/
theorem c4_invalid_input_witness :
    render emptyImage INITIAL_SETTINGS = Except.error RenderError.invalidInput ∧
    ∃ out, render oneByOne INITIAL_SETTINGS = Except.ok out ∧
      out.width = oneByOne.width ∧ out.height = oneByOne.height :=
  ⟨(c4_invalid_input emptyImage INITIAL_SETTINGS).1 (Or.inl rfl),
   (c4_invalid_input oneByOne INITIAL_SETTINGS).2 (by norm_num [oneByOne])
     (by norm_num [oneByOne])⟩

/-- C2: for a valid non-empty image and settings with every field at an
extreme documented value (±100, sharpness 0 or 100), the render succeeds and
every sample of the output buffer is a valid byte in `[0,255]` — the
tone-stage clamp plus the clamped byte store keep every write in range, and
every post-composite effect writes through the same clamped store. -/
theorem c2_clamp_closure (img : Image) (s : EditorSettings ℝ)
    (hbytes : ImageBytes img) (hw : 0 < img.width) (hh : 0 < img.height)
    (h1 : s.exposure = -100 ∨ s.exposure = 100)
    (h2 : s.contrast = -100 ∨ s.contrast = 100)
    (h3 : s.shadows = -100 ∨ s.shadows = 100)
    (h4 : s.highlights = -100 ∨ s.highlights = 100)
    (h5 : s.whites = -100 ∨ s.whites = 100)
    (h6 : s.temp = -100 ∨ s.temp = 100)
    (h7 : s.tint = -100 ∨ s.tint = 100)
    (h8 : s.saturation = -100 ∨ s.saturation = 100)
    (h9 : s.vibrance = -100 ∨ s.vibrance = 100)
    (h10 : s.sharpness = 0 ∨ s.sharpness = 100)
    (h11 : s.clarity = -100 ∨ s.clarity = 100)
    (h12 : s.vignette = -100 ∨ s.vignette = 100) :
    ImageBytes (toneImage s img) ∧
    ∃ out, render img s = Except.ok out ∧ ImageBytes out := by
  refine ⟨toneImage_bytes s img hbytes,
    (postOps s).foldl (applyPostOp img) (toneImage s img), ?_, ?_⟩
  · rw [render, if_neg (by push_neg; exact ⟨hw.ne', hh.ne'⟩)]
  · exact foldl_applyPostOp_bytes img _ _ (toneImage_bytes s img hbytes)

/-- C2 witness: clamp closure at one concrete extreme-settings render. -/
theorem c2_clamp_closure_witness :
    ImageBytes (toneImage
      (⟨100, -100, 100, -100, 100, -100, 100, 100, -100, 100, -100, 100⟩ :
        EditorSettings ℝ) oneByOne) ∧
    ∃ out, render oneByOne
      (⟨100, -100, 100, -100, 100, -100, 100, 100, -100, 100, -100, 100⟩ :
        EditorSettings ℝ) = Except.ok out ∧ ImageBytes out :=
  c2_clamp_closure oneByOne _
    (fun _ _ => by norm_num [oneByOne, PixBytes])
    (by norm_num [oneByOne]) (by norm_num [oneByOne])
    (Or.inr rfl) (Or.inl rfl) (Or.inr rfl) (Or.inl rfl) (Or.inr rfl) (Or.inl rfl)
    (Or.inr rfl) (Or.inr rfl) (Or.inl rfl) (Or.inr rfl) (Or.inl rfl) (Or.inr rfl)

/-- C9: for clarity < 0 (with `amt = clarity/100`) the stage first draws the
canvas onto itself under a blur filter of radius `|amt|*2` px, then draws the
original, untouched source image over the result in plain source-over mode at
opacity `0.5 + amt*0.4`; the `drawOriginal` call composites the original
image (not the tone-adjusted surface); for clarity = 0 the stage leaves the
surface unchanged. -/
theorem c9_negative_clarity (s : EditorSettings ℝ) :
    (s.clarity < 0 → clarityOps s =
      [PostOp.blurSelfDraw (|s.clarity / 100| * 2),
       PostOp.drawOriginal (1/2 + (s.clarity / 100) * (4/10))]) ∧
    (∀ orig surf : Image, ∀ al : ℝ,
      applyPostOp orig surf (PostOp.drawOriginal al) =
        compositeImg CompOp.sourceOver al surf orig) ∧
    (s.clarity = 0 → ∀ orig surf : Image,
      (clarityOps s).foldl (applyPostOp orig) surf = surf) := by
  refine ⟨?_, fun orig surf al => rfl, ?_⟩
  · intro h
    rw [clarityOps, if_pos h.ne,
      if_neg (not_lt.mpr (le_of_lt (div_neg_of_neg_of_pos h (by norm_num))))]
  · intro h orig surf
    rw [clarityOps, if_neg (by simp [h])]
    rfl

/-- C9 witness: the clarity stage trace at clarity = −50 and the no-op at
clarity = 0. -/
theorem c9_negative_clarity_witness :
    clarityOps (clarityOnly (-50 : ℝ)) =
      [PostOp.blurSelfDraw (|(clarityOnly (-50 : ℝ)).clarity / 100| * 2),
       PostOp.drawOriginal (1/2 + ((clarityOnly (-50 : ℝ)).clarity / 100) * (4/10))] ∧
    (clarityOps (clarityOnly (0 : ℝ))).foldl (applyPostOp oneByOne) oneByOne =
      oneByOne :=
  ⟨(c9_negative_clarity _).1 (by norm_num [clarityOnly]),
   (c9_negative_clarity _).2.2 rfl oneByOne oneByOne⟩

/-- C10: the sharpness stage is guarded by `sharpness > 0`, so every
sharpness value ≤ 0 (including out-of-domain negative values) issues no
canvas call at all and leaves the working surface unchanged — a silent
no-op, with no error and no clamping to the domain bound. -/
theorem c10_sharpness_nonpositive_noop (s : EditorSettings ℝ)
    (h : s.sharpness ≤ 0) :
    sharpnessOps s = [] ∧
    ∀ orig surf : Image, (sharpnessOps s).foldl (applyPostOp orig) surf = surf := by
  have he : sharpnessOps s = ([] : List (PostOp ℝ)) := by
    rw [sharpnessOps, if_neg (not_lt.mpr h)]
  exact ⟨he, fun orig surf => by rw [he]; rfl⟩

/-- C10 witness: sharpness = −30 (out of domain) issues no canvas call. -/
theorem c10_sharpness_nonpositive_noop_witness :
    sharpnessOps (sharpnessOnly (-30 : ℝ)) = [] ∧
    ∀ orig surf : Image,
      (sharpnessOps (sharpnessOnly (-30 : ℝ))).foldl (applyPostOp orig) surf = surf :=
  c10_sharpness_nonpositive_noop _ (by norm_num [sharpnessOnly])

/-- C3 counterexample: contrast = 300 does not behave as contrast = 100.  On
the pixel (200,200,200) the raw formula gives a negative contrast factor and
the stored result is 0, while contrast = 100 stores 255 — so the core does
not clamp out-of-range settings to the nearest valid bound. -/
theorem c3_counterexample :
    processPixel (1 : ℚ) (contrastOnly 300) ⟨200, 200, 200, 255⟩ ≠
      processPixel (1 : ℚ) (contrastOnly 100) ⟨200, 200, 200, 255⟩ := by
  norm_num [processPixel, toneCore, satVibBlock, contrastOnly, contrastFactor,
    toByte, roundHalfEven, min_def, max_def]

/-- C3 amended: the core performs no range validation at all — an
out-of-range settings field is used raw (contrast = 300 yields a negative
contrast factor, unlike any in-domain contrast value), and the render still
proceeds without failing for arbitrary settings values. -/
theorem c3_out_of_range_raw :
    contrastFactor (contrastOnly (300 : ℚ)) < 0 ∧
    0 < contrastFactor (contrastOnly (100 : ℚ)) ∧
    ∀ (s : EditorSettings ℝ) (img : Image), 0 < img.width → 0 < img.height →
      ∃ out, render img s = Except.ok out := by
  refine ⟨by norm_num [contrastFactor, contrastOnly],
    by norm_num [contrastFactor, contrastOnly], ?_⟩
  intro s img hw hh
  exact ⟨_, by rw [render, if_neg (by push_neg; exact ⟨hw.ne', hh.ne'⟩)]⟩

/-- C3 witness: an out-of-range settings value still renders successfully. -/
theorem c3_out_of_range_raw_witness :
    ∃ out, render oneByOne (contrastOnly (300 : ℝ)) = Except.ok out :=
  c3_out_of_range_raw.2.2 (contrastOnly (300 : ℝ)) oneByOne
    (by norm_num [oneByOne]) (by norm_num [oneByOne])

/-- C6: with contrast = 50 the factor is `259*305/(255*209)`; the contrast
map `c ↦ factor*(c-128)+128` fixes the mid-gray sample 128 for every
contrast setting in (−255, 259), and the whole render of a 2×2 all-mid-gray
image with contrast = 50 (all else 0) returns the source image unchanged. -/
theorem c6_contrast_pivot :
    contrastFactor (contrastOnly (50 : ℚ)) = (259 * 305) / (255 * 209) ∧
    (∀ k : ℚ, -255 < k → k < 259 →
      toneCore 1 (contrastOnly k) 128 128 128 = (128, 128, 128)) ∧
    render midGray2x2 (contrastOnly (50 : ℝ)) = Except.ok midGray2x2 := by
  refine ⟨by norm_num [contrastFactor, contrastOnly], ?_, ?_⟩
  · intro k _ _
    by_cases hk : k = 0
    · norm_num [toneCore, satVibBlock, contrastOnly, hk, min_def, max_def]
    · norm_num [toneCore, satVibBlock, contrastOnly, hk, min_def, max_def]
  · have h128 : toByte (128 : ℝ) = 128 := by
      rw [show (128 : ℝ) = ((128 : ℤ) : ℝ) by norm_num]
      exact toByte_intCast 128 (by norm_num) (by norm_num)
    rw [render, if_neg (by norm_num [midGray2x2]), postOps_zero _ rfl rfl rfl,
      List.foldl_nil]
    refine congrArg Except.ok (Image.eq_of rfl rfl fun x y => ?_)
    have hcore : toneCore (exposureMult (contrastOnly 50)) (contrastOnly (50 : ℝ))
        128 128 128 = (128, 128, 128) := by
      norm_num [toneCore, satVibBlock, contrastOnly, min_def, max_def]
    norm_num [toneImage, processPixel, midGray2x2, hcore, h128]

/-- C6 witness: the factor value, the 128 fixed point at contrast 50, and
the 2×2 render, all at concrete inputs. -/
theorem c6_contrast_pivot_witness :
    contrastFactor (contrastOnly (50 : ℚ)) = (259 * 305) / (255 * 209) ∧
    toneCore 1 (contrastOnly (50 : ℚ)) 128 128 128 = (128, 128, 128) ∧
    render midGray2x2 (contrastOnly (50 : ℝ)) = Except.ok midGray2x2 :=
  ⟨c6_contrast_pivot.1,
   c6_contrast_pivot.2.1 50 (by norm_num) (by norm_num),
   c6_contrast_pivot.2.2⟩

/-- C5 counterexample: on the achromatic pixel (200,200,200) with
saturation = 100 (all other fields 0) the channel value computed by the
stage is 200.02, not 200 — the delta from the computed gray is not zero,
because the gray coefficients 0.2989+0.5870+0.1140 sum to 0.9999, not 1. -/
theorem c5_counterexample :
    (toneCore (1 : ℚ) (satVibOnly 100 0) 200 200 200).1 ≠ 200 := by
  norm_num [toneCore, satVibBlock, satVibOnly, grayOf, satMult, min_def, max_def]

/-- C5 amended: for an achromatic byte pixel and saturation or vibrance
alone within the documented domain [−100,100], the stored pixel is unchanged
— not because the delta from gray is zero (it is `v/10000`), but because the
per-channel perturbation is at most `255*100/10^6 = 0.0255 < 1/2` and the
clamped byte write-back rounds it away. -/
theorem c5_gray_pixel_rounded (em sa vi : ℚ) (v al : ℤ)
    (hv0 : 0 ≤ v) (hv255 : v ≤ 255)
    (hsa1 : -100 ≤ sa) (hsa2 : sa ≤ 100) (hvi1 : -100 ≤ vi) (hvi2 : vi ≤ 100)
    (hone : sa = 0 ∨ vi = 0) :
    processPixel em (satVibOnly sa vi) ⟨v, v, v, al⟩ = ⟨v, v, v, al⟩ := by
  have hcast0 : (0:ℚ) ≤ (v:ℚ) := by exact_mod_cast hv0
  have hcast255 : (v:ℚ) ≤ 255 := by exact_mod_cast hv255
  have hgray : grayOf (v:ℚ) (v:ℚ) (v:ℚ) = (9999/10000) * (v:ℚ) := by
    rw [grayOf]; ring
  have hamt : vibAmt (v:ℚ) (v:ℚ) (v:ℚ) = 0 := by
    rw [vibAmt, max_self, max_self, show ((v:ℚ) + v + v) / 3 = (v:ℚ) by ring,
      sub_self, abs_zero]
    ring
  have hnear : ∀ t : ℚ, -100 ≤ t → t ≤ 100 →
      toByte ((v:ℚ) + v * t / 1000000) = v := by
    intro t ht1 ht2
    apply toByte_near_int v hv0 hv255
    have habs : |(v:ℚ) * t| ≤ 25500 := by
      rw [abs_mul]
      calc |(v:ℚ)| * |t| ≤ 255 * 100 := by
            apply mul_le_mul ?_ ?_ (abs_nonneg t) (by norm_num)
            · rw [abs_of_nonneg hcast0]; exact hcast255
            · rw [abs_le]; exact ⟨ht1, ht2⟩
        _ = 25500 := by norm_num
    calc |(v:ℚ) + v * t / 1000000 - v| = |(v:ℚ) * t| / 1000000 := by
          rw [show (v:ℚ) + v * t / 1000000 - v = v * t / 1000000 by ring, abs_div,
            abs_of_pos (by norm_num : (0:ℚ) < 1000000)]
      _ ≤ 25500 / 1000000 := by
          exact (div_le_div_right (by norm_num)).mpr habs
      _ < 1/2 := by norm_num
  have h1 : toneCore em (satVibOnly sa vi) (v:ℚ) (v:ℚ) (v:ℚ)
      = satVibBlock (satVibOnly sa vi) (v:ℚ) (v:ℚ) (v:ℚ) := by
    rw [toneCore_toneZero em _ rfl rfl rfl rfl rfl rfl rfl,
      clamp_intCast _ hv0 hv255]
  have hblock : satVibBlock (satVibOnly sa vi) (v:ℚ) (v:ℚ) (v:ℚ) =
      ((v:ℚ) + v * (sa + vi) / 1000000, (v:ℚ) + v * (sa + vi) / 1000000,
        (v:ℚ) + v * (sa + vi) / 1000000) := by
    rcases hone with hsa0 | hvi0
    · subst hsa0
      by_cases hv : vi = 0
      · subst hv
        rw [satVibBlock_zero _ rfl rfl]
        norm_num
      · by_cases hvpos : 0 < vi
        · simp [satVibBlock, satVibOnly, hv, hvpos, hgray, hamt, vibMult]
          ring_nf
        · simp [satVibBlock, satVibOnly, hv, hvpos, hgray, hamt, vibMult]
          ring_nf
    · subst hvi0
      by_cases hs : sa = 0
      · subst hs
        rw [satVibBlock_zero _ rfl rfl]
        norm_num
      · simp [satVibBlock, satVibOnly, hs, hgray, hamt, satMult]
        ring_nf
  have hts1 : -100 ≤ sa + vi := by rcases hone with h | h <;> rw [h] <;> linarith
  have hts2 : sa + vi ≤ 100 := by rcases hone with h | h <;> rw [h] <;> linarith
  simp only [processPixel, h1, hblock, Pix.mk.injEq]
  exact ⟨hnear _ hts1 hts2, hnear _ hts1 hts2, hnear _ hts1 hts2, trivial⟩

/-- C5 witness: saturation 100 alone leaves the stored gray pixel
(200,200,200) unchanged. -/
theorem c5_gray_pixel_rounded_witness :
    processPixel (1:ℚ) (satVibOnly 100 0) ⟨200, 200, 200, 255⟩ =
      ⟨200, 200, 200, 255⟩ :=
  c5_gray_pixel_rounded 1 100 0 200 255 (by norm_num) (by norm_num) (by norm_num)
    (by norm_num) (by norm_num) (by norm_num) (Or.inr rfl)

/-- On channels already clamped to `[0,255]` the protection amount computed
by the source (no `min`) never exceeds 1, so it agrees with the spec's
`min 1 (...)` formulation. -/
theorem vibranceSpecAmt_eq_vibAmt {r g b : K} (hr0 : 0 ≤ r) (hr2 : r ≤ 255)
    (hg0 : 0 ≤ g) (hg2 : g ≤ 255) (hb0 : 0 ≤ b) (hb2 : b ≤ 255) :
    vibranceSpecAmt r g b = vibAmt r g b := by
  rw [vibranceSpecAmt, vibAmt]
  apply min_eq_right
  have hM1 : max r (max g b) ≤ 255 := max_le hr2 (max_le hg2 hb2)
  have hM0 : 0 ≤ max r (max g b) := le_trans hr0 (le_max_left _ _)
  have hA0 : 0 ≤ (r + g + b) / 3 := div_nonneg (by linarith) (by norm_num)
  have hA1 : (r + g + b) / 3 ≤ 255 := by
    rw [div_le_iff (by norm_num : (0:K) < 3)]
    linarith
  have habs : |max r (max g b) - (r + g + b) / 3| ≤ 255 :=
    abs_le.mpr ⟨by linarith, by linarith⟩
  calc (|max r (max g b) - (r + g + b) / 3| * 2 / 255) * (1/2)
      = |max r (max g b) - (r + g + b) / 3| / 255 := by ring
    _ ≤ 1 := by
        rw [div_le_one (by norm_num : (0:K) < 255)]
        exact habs

/-- C7: on clamped post-tone channels with vibrance alone nonzero, the
stage's protection amount equals the spec's `min 1` form, and the vibrance
step scales each channel's delta from gray by `(vibMult-1)*(1-amt)` when
vibrance > 0 and uniformly by `(vibMult-1)` (no protection) when
vibrance < 0, with `vibMult = 1 + vibrance/100`. -/
theorem c7_vibrance_formula (vi : ℚ) (r g b : ℤ) (hvi : vi ≠ 0)
    (hr0 : 0 ≤ r) (hr2 : r ≤ 255) (hg0 : 0 ≤ g) (hg2 : g ≤ 255)
    (hb0 : 0 ≤ b) (hb2 : b ≤ 255) :
    (∀ em : ℚ, toneCore em (satVibOnly 0 vi) (r:ℚ) (g:ℚ) (b:ℚ)
        = satVibBlock (satVibOnly 0 vi) (r:ℚ) (g:ℚ) (b:ℚ)) ∧
    vibAmt (r:ℚ) (g:ℚ) (b:ℚ) = vibranceSpecAmt (r:ℚ) (g:ℚ) (b:ℚ) ∧
    (0 < vi → satVibBlock (satVibOnly 0 vi) (r:ℚ) (g:ℚ) (b:ℚ) =
      ((r:ℚ) + ((r:ℚ) - grayOf (r:ℚ) (g:ℚ) (b:ℚ)) * ((1 + vi / 100) - 1) *
          (1 - vibranceSpecAmt (r:ℚ) (g:ℚ) (b:ℚ)),
       (g:ℚ) + ((g:ℚ) - grayOf (r:ℚ) (g:ℚ) (b:ℚ)) * ((1 + vi / 100) - 1) *
          (1 - vibranceSpecAmt (r:ℚ) (g:ℚ) (b:ℚ)),
       (b:ℚ) + ((b:ℚ) - grayOf (r:ℚ) (g:ℚ) (b:ℚ)) * ((1 + vi / 100) - 1) *
          (1 - vibranceSpecAmt (r:ℚ) (g:ℚ) (b:ℚ)))) ∧
    (vi < 0 → satVibBlock (satVibOnly 0 vi) (r:ℚ) (g:ℚ) (b:ℚ) =
      ((r:ℚ) + ((r:ℚ) - grayOf (r:ℚ) (g:ℚ) (b:ℚ)) * ((1 + vi / 100) - 1),
       (g:ℚ) + ((g:ℚ) - grayOf (r:ℚ) (g:ℚ) (b:ℚ)) * ((1 + vi / 100) - 1),
       (b:ℚ) + ((b:ℚ) - grayOf (r:ℚ) (g:ℚ) (b:ℚ)) * ((1 + vi / 100) - 1))) := by
  have hr0c : (0:ℚ) ≤ (r:ℚ) := by exact_mod_cast hr0
  have hr2c : (r:ℚ) ≤ 255 := by exact_mod_cast hr2
  have hg0c : (0:ℚ) ≤ (g:ℚ) := by exact_mod_cast hg0
  have hg2c : (g:ℚ) ≤ 255 := by exact_mod_cast hg2
  have hb0c : (0:ℚ) ≤ (b:ℚ) := by exact_mod_cast hb0
  have hb2c : (b:ℚ) ≤ 255 := by exact_mod_cast hb2
  have heq := vibranceSpecAmt_eq_vibAmt hr0c hr2c hg0c hg2c hb0c hb2c
  refine ⟨?_, heq.symm, ?_, ?_⟩
  · intro em
    rw [toneCore_toneZero em _ rfl rfl rfl rfl rfl rfl rfl,
      clamp_intCast _ hr0 hr2, clamp_intCast _ hg0 hg2, clamp_intCast _ hb0 hb2]
  · intro h
    rw [heq]
    simp [satVibBlock, satVibOnly, hvi, h, vibMult]
  · intro h
    have hnpos : ¬ 0 < vi := not_lt.mpr h.le
    simp [satVibBlock, satVibOnly, hvi, hnpos, vibMult]

/-- C7 witness: both vibrance branches evaluated at the concrete clamped
pixel (250, 10, 40) with vibrance ±50. -/
theorem c7_vibrance_formula_witness :
    satVibBlock (satVibOnly 0 (50:ℚ)) ((250:ℤ):ℚ) ((10:ℤ):ℚ) ((40:ℤ):ℚ) =
      (((250:ℤ):ℚ) + (((250:ℤ):ℚ) - grayOf ((250:ℤ):ℚ) ((10:ℤ):ℚ) ((40:ℤ):ℚ)) *
          ((1 + (50:ℚ) / 100) - 1) *
          (1 - vibranceSpecAmt ((250:ℤ):ℚ) ((10:ℤ):ℚ) ((40:ℤ):ℚ)),
       ((10:ℤ):ℚ) + (((10:ℤ):ℚ) - grayOf ((250:ℤ):ℚ) ((10:ℤ):ℚ) ((40:ℤ):ℚ)) *
          ((1 + (50:ℚ) / 100) - 1) *
          (1 - vibranceSpecAmt ((250:ℤ):ℚ) ((10:ℤ):ℚ) ((40:ℤ):ℚ)),
       ((40:ℤ):ℚ) + (((40:ℤ):ℚ) - grayOf ((250:ℤ):ℚ) ((10:ℤ):ℚ) ((40:ℤ):ℚ)) *
          ((1 + (50:ℚ) / 100) - 1) *
          (1 - vibranceSpecAmt ((250:ℤ):ℚ) ((10:ℤ):ℚ) ((40:ℤ):ℚ))) ∧
    satVibBlock (satVibOnly 0 (-50:ℚ)) ((250:ℤ):ℚ) ((10:ℤ):ℚ) ((40:ℤ):ℚ) =
      (((250:ℤ):ℚ) + (((250:ℤ):ℚ) - grayOf ((250:ℤ):ℚ) ((10:ℤ):ℚ) ((40:ℤ):ℚ)) *
          ((1 + (-50:ℚ) / 100) - 1),
       ((10:ℤ):ℚ) + (((10:ℤ):ℚ) - grayOf ((250:ℤ):ℚ) ((10:ℤ):ℚ) ((40:ℤ):ℚ)) *
          ((1 + (-50:ℚ) / 100) - 1),
       ((40:ℤ):ℚ) + (((40:ℤ):ℚ) - grayOf ((250:ℤ):ℚ) ((10:ℤ):ℚ) ((40:ℤ):ℚ)) *
          ((1 + (-50:ℚ) / 100) - 1)) :=
  ⟨(c7_vibrance_formula 50 250 10 40 (by norm_num) (by norm_num) (by norm_num)
      (by norm_num) (by norm_num) (by norm_num) (by norm_num)).2.2.1 (by norm_num),
   (c7_vibrance_formula (-50) 250 10 40 (by norm_num) (by norm_num) (by norm_num)
      (by norm_num) (by norm_num) (by norm_num) (by norm_num)).2.2.2 (by norm_num)⟩

/-- The exposure multiplier `2^(e/100)` is positive. -/
theorem exposureMult_pos (s : EditorSettings ℝ) : 0 < exposureMult s :=
  Real.rpow_pos_of_pos (by norm_num) _

/-- The exposure multiplier is monotone in the exposure setting. -/
theorem exposureMult_le_of_le {e1 e2 : ℝ} (h : e1 ≤ e2) :
    exposureMult (expOnly e1) ≤ exposureMult (expOnly e2) := by
  show (2:ℝ) ^ (e1 / 100) ≤ (2:ℝ) ^ (e2 / 100)
  exact Real.rpow_le_rpow_of_exponent_le (by norm_num) (by linarith)

/-- The exposure multiplier is strictly monotone in the exposure setting. -/
theorem exposureMult_lt_of_lt {e1 e2 : ℝ} (h : e1 < e2) :
    exposureMult (expOnly e1) < exposureMult (expOnly e2) := by
  show (2:ℝ) ^ (e1 / 100) < (2:ℝ) ^ (e2 / 100)
  exact Real.rpow_lt_rpow_of_exponent_lt (by norm_num) (by linarith)

/-- With only exposure set, the pixel loop multiplies each channel by the
exposure multiplier and clamps; the `exposure ≠ 0` guard is invisible in the
result because the multiplier at exposure 0 is `2^0 = 1`. -/
theorem toneCore_expOnly (e : ℝ) (x y z : ℝ) :
    toneCore (exposureMult (expOnly e)) (expOnly e) x y z =
      (max 0 (min 255 (x * exposureMult (expOnly e))),
       max 0 (min 255 (y * exposureMult (expOnly e))),
       max 0 (min 255 (z * exposureMult (expOnly e)))) := by
  by_cases he : e = 0
  · subst he
    have h1 : exposureMult (expOnly (0:ℝ)) = 1 := by
      show (2:ℝ) ^ ((0:ℝ) / 100) = 1
      rw [zero_div, Real.rpow_zero]
    rw [h1]
    simp [toneCore, satVibBlock, expOnly]
  · simp [toneCore, satVibBlock, expOnly, he]

/-- C8: with all settings other than exposure equal to 0, each stored
channel value is a monotone nondecreasing function of the exposure setting,
and the channel value computed by the stage (before the byte store) is
strictly increasing in the exposure on nonzero channels until the clamp at
255 is reached — the stage multiplies each channel by `2^(exposure/100)`
and clamps. -/
theorem c8_monotonic_exposure (p : Pix) (e1 e2 : ℝ) (hp : PixBytes p)
    (h12 : e1 ≤ e2) :
    ((processPixel (exposureMult (expOnly e1)) (expOnly e1) p).r ≤
       (processPixel (exposureMult (expOnly e2)) (expOnly e2) p).r ∧
     (processPixel (exposureMult (expOnly e1)) (expOnly e1) p).g ≤
       (processPixel (exposureMult (expOnly e2)) (expOnly e2) p).g ∧
     (processPixel (exposureMult (expOnly e1)) (expOnly e1) p).b ≤
       (processPixel (exposureMult (expOnly e2)) (expOnly e2) p).b) ∧
    (∀ v : ℤ, 1 ≤ v → e1 < e2 → (v:ℝ) * exposureMult (expOnly e1) < 255 →
      (toneCore (exposureMult (expOnly e1)) (expOnly e1) (v:ℝ) (v:ℝ) (v:ℝ)).1 <
        (toneCore (exposureMult (expOnly e2)) (expOnly e2) (v:ℝ) (v:ℝ) (v:ℝ)).1) := by
  obtain ⟨⟨hr0, _⟩, ⟨hg0, _⟩, ⟨hb0, _⟩, _⟩ := hp
  have hem := exposureMult_le_of_le h12
  have hchan : ∀ w : ℤ, 0 ≤ w →
      toByte (max 0 (min 255 ((w:ℝ) * exposureMult (expOnly e1)))) ≤
        toByte (max 0 (min 255 ((w:ℝ) * exposureMult (expOnly e2)))) := by
    intro w hw
    apply toByte_mono
    apply max_le_max le_rfl
    apply min_le_min le_rfl
    exact mul_le_mul_of_nonneg_left hem (by exact_mod_cast hw)
  constructor
  · refine ⟨?_, ?_, ?_⟩
    · simp only [processPixel, toneCore_expOnly]
      exact hchan p.r hr0
    · simp only [processPixel, toneCore_expOnly]
      exact hchan p.g hg0
    · simp only [processPixel, toneCore_expOnly]
      exact hchan p.b hb0
  · intro v hv1 hlt h255
    have hvpos : (0:ℝ) < (v:ℝ) := by
      have : (0:ℤ) < v := by omega
      exact_mod_cast this
    have hemlt := exposureMult_lt_of_lt hlt
    have hm2pos : 0 < exposureMult (expOnly e2) := exposureMult_pos _
    have hx1 : (0:ℝ) < (v:ℝ) * exposureMult (expOnly e1) :=
      mul_pos hvpos (exposureMult_pos _)
    have hxlt : (v:ℝ) * exposureMult (expOnly e1) <
        (v:ℝ) * exposureMult (expOnly e2) :=
      mul_lt_mul_of_pos_left hemlt hvpos
    rw [toneCore_expOnly, toneCore_expOnly]
    dsimp only
    have h1eq : max 0 (min 255 ((v:ℝ) * exposureMult (expOnly e1))) =
        (v:ℝ) * exposureMult (expOnly e1) := by
      rw [min_eq_right h255.le, max_eq_right hx1.le]
    rcases le_or_lt ((v:ℝ) * exposureMult (expOnly e2)) 255 with hc | hc
    · rw [h1eq, min_eq_right hc, max_eq_right (mul_pos hvpos hm2pos).le]
      exact hxlt
    · rw [h1eq, min_eq_left hc.le, max_eq_right (by norm_num : (0:ℝ) ≤ 255)]
      exact h255

/-- C8 witness: exposure 0 versus exposure 100 on the pixel value 100 — the
stored byte is nondecreasing and the stage value strictly increases. -/
theorem c8_monotonic_exposure_witness :
    (processPixel (exposureMult (expOnly (0:ℝ))) (expOnly 0)
        ⟨100, 100, 100, 255⟩).r ≤
      (processPixel (exposureMult (expOnly (100:ℝ))) (expOnly 100)
        ⟨100, 100, 100, 255⟩).r ∧
    (toneCore (exposureMult (expOnly (0:ℝ))) (expOnly 0)
        ((100:ℤ):ℝ) ((100:ℤ):ℝ) ((100:ℤ):ℝ)).1 <
      (toneCore (exposureMult (expOnly (100:ℝ))) (expOnly 100)
        ((100:ℤ):ℝ) ((100:ℤ):ℝ) ((100:ℤ):ℝ)).1 :=
  ⟨((c8_monotonic_exposure ⟨100, 100, 100, 255⟩ 0 100
      (by norm_num [PixBytes]) (by norm_num)).1).1,
   (c8_monotonic_exposure ⟨100, 100, 100, 255⟩ 0 100
      (by norm_num [PixBytes]) (by norm_num)).2 100 (by norm_num) (by norm_num)
      (by norm_num [exposureMult, expOnly])⟩

end RPS
